import Mathlib

/-!
Verification of the movies-dataset dashboard (src/streamlit_app.py).

The app is a linear pipeline: load a CSV of (year, genre, gross) rows,
fetch a USD to EUR exchange rate (cached for 12 hours, guarded by a
try/except), filter rows by a genre multiselect and an inclusive year-range
slider, pivot into a year-by-genre matrix of summed gross with zero fill,
sort rows by year descending, multiply every cell by the rate, and render
the result as a table and a melted line chart.

This file embeds that pipeline shallowly: rows are `MovieRecord`s, gross
amounts and the exchange rate are rationals, the pandas operations on
lines 55-60 of the source become pure list/matrix functions, and the
exception behaviour of `load_usd_to_eur_rate` (lines 26-42) is modelled by
an explicit Python-exception type threaded through `Except`.
-/

/-- One row of data/movies_genres_summary.csv as loaded by `load_data`:
a (year, genre, gross) aggregate, gross in USD. -/
structure MovieRecord where
  year : Int
  genre : String
  gross : Rat
deriving DecidableEq, Repr

/-- Insert `x` into `l` keeping elements ordered by the Boolean relation
`le` (used to model the row/column ordering pandas applies). -/
def orderedInsert (le : α → α → Bool) (x : α) : List α → List α
  | [] => [x]
  | y :: ys => if le x y then x :: y :: ys else y :: orderedInsert le x ys

/-- Insertion sort by the Boolean relation `le`. -/
def sortByRel (le : α → α → Bool) : List α → List α
  | [] => []
  | x :: xs => orderedInsert le x (sortByRel le xs)

/-- Line 55 of the source:
`df[(df["genre"].isin(genres)) & (df["year"].between(years[0], years[1]))]` —
keep the rows whose genre is in the selected list and whose year lies in
the inclusive range `[y0, y1]` (`Series.between` is inclusive on both ends). -/
def df_filtered (df : List MovieRecord) (genres : List String) (y0 y1 : Int) :
    List MovieRecord :=
  df.filter fun r => genres.contains r.genre && (decide (y0 ≤ r.year) && decide (r.year ≤ y1))

/-- The year-by-genre matrix produced by the pivot: a list of year row
labels, a list of genre column labels, and a cell function. -/
structure GenreMatrix where
  rows : List Int
  cols : List String
  cell : Int → String → Rat

/-- Sum of the gross column over the records of `l` whose year is `y` and
whose genre is `g` (the `aggfunc="sum"` aggregation of one pivot cell;
an empty group sums to 0, which coincides with `fill_value=0`). -/
def cellSum (l : List MovieRecord) (y : Int) (g : String) : Rat :=
  ((l.filter fun r => r.year == y && r.genre == g).map (·.gross)).sum

/-- Lines 56-58 of the source:
`df_filtered.pivot_table(index="year", columns="genre", values="gross",
aggfunc="sum", fill_value=0)`. The row labels are the distinct years
occurring in the filtered rows and the column labels the distinct genres
occurring in the filtered rows — pandas derives both from the data that is
actually present and sorts them ascending. A (year, genre) pair with
labels present but no matching rows is filled with 0, which `cellSum`
yields as the empty sum. -/
def pivot_table (l : List MovieRecord) : GenreMatrix where
  rows := sortByRel (fun a b => decide (a ≤ b)) (l.map (·.year)).dedup
  cols := sortByRel (fun a b => decide (a ≤ b)) (l.map (·.genre)).dedup
  cell := fun y g => cellSum l y g

/-- Line 59 of the source:
`df_reshaped.sort_values(by="year", ascending=False)` — reorder the rows
by year descending; columns and cells are untouched. -/
def sort_values_year_desc (m : GenreMatrix) : GenreMatrix :=
  { m with rows := sortByRel (fun a b => decide (b ≤ a)) m.rows }

/-- The reshaped matrix of lines 56-59: pivot then sort by year descending. -/
def df_reshaped (df : List MovieRecord) (genres : List String) (y0 y1 : Int) :
    GenreMatrix :=
  sort_values_year_desc (pivot_table (df_filtered df genres y0 y1))

/-- Line 60 of the source: `df_reshaped * usd_to_eur_rate` — scalar
multiplication of a dataframe multiplies every cell, leaving the row and
column labels unchanged, and returns a fresh dataframe. -/
def convertToEur (m : GenreMatrix) (rate : Rat) : GenreMatrix :=
  { m with cell := fun y g => m.cell y g * rate }

/-- The converted matrix `df_reshaped_eur` of line 60. -/
def df_reshaped_eur (df : List MovieRecord) (genres : List String) (y0 y1 : Int)
    (rate : Rat) : GenreMatrix :=
  convertToEur (df_reshaped df genres y0 y1) rate

/-- Lines 71-73 of the source: `pd.melt(df_reshaped_eur.reset_index(),
id_vars="year", var_name="genre", value_name="gross")` — the long-form
(year, genre, gross) triples the line chart is drawn from, one triple per
(column, row) pair of the matrix. An empty matrix melts to no triples. -/
def df_chart (m : GenreMatrix) : List (Int × String × Rat) :=
  (m.cols.map fun g => m.rows.map fun y => (y, g, m.cell y g)).flatten

/-- Line 52 of the source: `st.slider("Years", 1986, 2006, (2000, 2016))` —
the slider's minimum bound. -/
def sliderMinYear : Int := 1986

/-- Line 52 of the source: the slider's maximum bound. -/
def sliderMaxYear : Int := 2006

/-- Line 52 of the source: the slider's default selected sub-range. -/
def sliderDefaultRange : Int × Int := (2000, 2016)

/-- The Python exception classes relevant to lines 26-42 of the source.
`json.JSONDecodeError` is kept distinct from its superclass `ValueError`
so the except tuple can be modelled literally; `urllib.error.HTTPError`
is a subclass of `URLError` and is mapped to `urlError`. -/
inductive PyExc where
  | urlError
  | timeoutError
  | keyError
  | valueError
  | jsonDecodeError
  | typeError
deriving DecidableEq, Repr

/-- A JSON value, the result of `json.loads` on the response body. -/
inductive JValue where
  | null
  | bool (b : Bool)
  | num (q : Rat)
  | str (s : String)
  | arr (xs : List JValue)
  | obj (kvs : List (String × JValue))

/-- Python subscripting `v[k]` with a string key: an object yields the
value at the key or raises `KeyError`; every other JSON value (list,
string, number, bool, null) raises `TypeError` when indexed by a string. -/
def getItem (v : JValue) (k : String) : Except PyExc JValue :=
  match v with
  | .obj kvs =>
      match kvs.lookup k with
      | some x => .ok x
      | none => .error .keyError
  | _ => .error .typeError

/-- Numeric value of a list of decimal digit characters. -/
def digitsVal (cs : List Char) : Nat :=
  cs.foldl (fun n c => n * 10 + (c.toNat - 48)) 0

/-- Decimal-literal fragment of Python's `float(str)`: an optional sign,
digits, optionally a dot and more digits, with at least one digit in
total. Strings outside this shape are treated as non-numeric. -/
def parseDecimal (s : String) : Option Rat :=
  let cs := s.toList
  let signed : Bool × List Char :=
    match cs with
    | '-' :: rest => (true, rest)
    | '+' :: rest => (false, rest)
    | _ => (false, cs)
  let ip := signed.2.takeWhile (·.isDigit)
  let rest := signed.2.dropWhile (·.isDigit)
  let core : Option Rat :=
    match rest with
    | [] => if ip.isEmpty then none else some (digitsVal ip : Rat)
    | '.' :: fp =>
        if fp.all (·.isDigit) && !(ip.isEmpty && fp.isEmpty) then
          some ((digitsVal ip : Rat) + (digitsVal fp : Rat) / (10 : Rat) ^ fp.length)
        else none
    | _ => none
  core.map fun v => if signed.1 then -v else v

/-- Python's `float(x)` on a JSON value: numbers and bools convert,
numeric strings parse, non-numeric strings raise `ValueError`, and
`None`, lists and dicts raise `TypeError`. -/
def pyFloat (v : JValue) : Except PyExc Rat :=
  match v with
  | .num q => .ok q
  | .bool b => .ok (if b then 1 else 0)
  | .str s =>
      match parseDecimal s with
      | some q => .ok q
      | none => .error .valueError
  | .null => .error .typeError
  | .arr _ => .error .typeError
  | .obj _ => .error .typeError

/-- Outcome of the HTTP round trip performed by `request.urlopen` on
lines 29-32: the connection can fail (`URLError`), time out
(`TimeoutError`), return an HTTP error status (`HTTPError`, a subclass of
`URLError`), or deliver a body; `json.loads` on the body either raises
`JSONDecodeError` (modelled as `body none`) or yields a JSON value. -/
inductive FetchOutcome where
  | connectionFailure
  | timeout
  | httpError (code : Nat)
  | body (parsed : Option JValue)

/-- Lines 26-34 of the source, `load_usd_to_eur_rate` as a function of the
network outcome: fetch the payload, then evaluate
`float(payload["rates"]["EUR"]), payload["date"]`, propagating the first
exception raised. The `@st.cache_data(ttl=60*60*12)` wrapper is modelled
separately by `cachedRateCall`. -/
def load_usd_to_eur_rate (o : FetchOutcome) : Except PyExc (Rat × JValue) :=
  match o with
  | .connectionFailure => .error .urlError
  | .timeout => .error .timeoutError
  | .httpError _ => .error .urlError
  | .body none => .error .jsonDecodeError
  | .body (some payload) => do
      let rates ← getItem payload "rates"
      let eurVal ← getItem rates "EUR"
      let rate ← pyFloat eurVal
      let date ← getItem payload "date"
      pure (rate, date)

/-- Line 40 of the source: whether an exception is matched by
`except (error.URLError, TimeoutError, KeyError, ValueError,
json.JSONDecodeError)`. `TypeError` is absent from the tuple. -/
def handledByExcept (e : PyExc) : Bool :=
  match e with
  | .urlError => true
  | .timeoutError => true
  | .keyError => true
  | .valueError => true
  | .jsonDecodeError => true
  | .typeError => false

/-- The message passed to `st.error` on line 41. -/
def rateErrorMessage : String :=
  "Could not load a live USD to EUR exchange rate. Please try again."

/-- What the render cycle does with the rate fetch: a caught exception
shows the single error message and stops (`st.error` + `st.stop`), an
uncaught exception propagates out of the script as a raw exception, and
success continues rendering with the (rate, date) pair. -/
inductive RenderOutcome where
  | errorStop (msg : String)
  | raised (e : PyExc)
  | page (rate : Rat) (date : JValue)

/-- Lines 38-42 of the source: the try/except around
`load_usd_to_eur_rate`, as seen by the user for a given network outcome. -/
def appRenderFx (o : FetchOutcome) : RenderOutcome :=
  match load_usd_to_eur_rate o with
  | .ok rd => .page rd.1 rd.2
  | .error e =>
      if handledByExcept e then .errorStop rateErrorMessage else .raised e

/-- Line 26 of the source: `ttl=60 * 60 * 12`, the cache lifetime of
`load_usd_to_eur_rate` in seconds. -/
def fxCacheTtl : Nat := 60 * 60 * 12

/-- A populated cache slot of `@st.cache_data`: the time of the successful
fetch and the value it produced. -/
structure FxCacheEntry where
  fetchedAt : Nat
  value : Rat × JValue

/-- Behaviour of `@st.cache_data(ttl=60*60*12)` around the fetch: a call
at time `now` returns the cached value without touching the network while
the entry is younger than the ttl, and otherwise performs one network
fetch and stores the result. Returns (value, number of network requests
issued by this call, new cache state). -/
def cachedRateCall (fetch : Nat → Rat × JValue) (st : Option FxCacheEntry)
    (now : Nat) : (Rat × JValue) × Nat × Option FxCacheEntry :=
  match st with
  | some c =>
      if now < c.fetchedAt + fxCacheTtl then (c.value, 0, some c)
      else ((fetch now), 1, some ⟨now, fetch now⟩)
  | none => ((fetch now), 1, some ⟨now, fetch now⟩)

theorem mem_orderedInsert (le : α → α → Bool) (x a : α) (l : List α) :
    a ∈ orderedInsert le x l ↔ a = x ∨ a ∈ l := by
  induction l with
  | nil => simp [orderedInsert]
  | cons y ys ih =>
      simp only [orderedInsert]
      split
      · simp
      · simp only [List.mem_cons, ih]
        tauto

theorem mem_sortByRel (le : α → α → Bool) (a : α) (l : List α) :
    a ∈ sortByRel le l ↔ a ∈ l := by
  induction l with
  | nil => simp [sortByRel]
  | cons x xs ih => simp [sortByRel, mem_orderedInsert, ih]

/-- C1: for every dataset, rate, and non-empty selection of genres and
inclusive year range, every cell (year, genre) of the final converted
matrix `df_reshaped_eur` equals the sum of gross over all records whose
year equals that row, whose genre equals that column, whose genre is in
the selected genre set, and whose year lies within the inclusive range,
multiplied by the exchange rate. -/
theorem converted_cell_is_rate_times_matching_sum
    (df : List MovieRecord) (genres : List String) (y0 y1 : Int) (rate : Rat)
    (y : Int) (g : String)
    (hy : y ∈ (df_reshaped_eur df genres y0 y1 rate).rows)
    (hg : g ∈ (df_reshaped_eur df genres y0 y1 rate).cols) :
    (df_reshaped_eur df genres y0 y1 rate).cell y g =
      ((df.filter fun r => (r.year == y && r.genre == g) &&
          (genres.contains r.genre &&
            (decide (y0 ≤ r.year) && decide (r.year ≤ y1)))).map (·.gross)).sum
        * rate := by
  simp only [df_reshaped_eur, convertToEur, df_reshaped, sort_values_year_desc,
    pivot_table, cellSum, df_filtered, List.filter_filter]

theorem converted_cell_witness :
    (df_reshaped_eur [⟨2005, "Drama", 100⟩] ["Drama"] 2000 2010 2).cell 2005 "Drama" =
      (([⟨2005, "Drama", 100⟩].filter fun r : MovieRecord =>
          (r.year == 2005 && r.genre == "Drama") &&
          (["Drama"].contains r.genre &&
            (decide ((2000 : Int) ≤ r.year) && decide (r.year ≤ 2010)))).map (·.gross)).sum
        * 2 :=
  converted_cell_is_rate_times_matching_sum [⟨2005, "Drama", 100⟩] ["Drama"] 2000 2010 2
    2005 "Drama" (by decide) (by decide)

/-- C4: line 52 configures the year slider with fixed bounds 1986-2006
while the default selected sub-range is (2000, 2016); the default's upper
endpoint exceeds the slider's maximum bound, so the default selection is
not contained within the slider's bounds. -/
theorem slider_default_exceeds_bounds :
    sliderMinYear = 1986 ∧ sliderMaxYear = 2006 ∧
    sliderDefaultRange = (2000, 2016) ∧
    sliderMaxYear < sliderDefaultRange.2 ∧
    ¬(sliderMinYear ≤ sliderDefaultRange.2 ∧ sliderDefaultRange.2 ≤ sliderMaxYear) := by
  refine ⟨rfl, rfl, rfl, by decide, by decide⟩

/-- C8: every year indexing a row of the reshaped matrix lies within the
inclusive selected range [y0, y1]; the invariant holds for `df_reshaped`
(after filtering, pivoting and sorting) and for the converted matrix
`df_reshaped_eur`. -/
theorem reshaped_years_within_range
    (df : List MovieRecord) (genres : List String) (y0 y1 : Int) (rate : Rat)
    (y : Int) :
    (y ∈ (df_reshaped df genres y0 y1).rows → y0 ≤ y ∧ y ≤ y1) ∧
    (y ∈ (df_reshaped_eur df genres y0 y1 rate).rows → y0 ≤ y ∧ y ≤ y1) := by
  have key : y ∈ (df_reshaped df genres y0 y1).rows → y0 ≤ y ∧ y ≤ y1 := by
    intro hy
    simp only [df_reshaped, sort_values_year_desc, pivot_table, mem_sortByRel,
      List.mem_dedup, List.mem_map] at hy
    obtain ⟨r, hr, rfl⟩ := hy
    simp only [df_filtered, List.mem_filter, Bool.and_eq_true,
      decide_eq_true_eq] at hr
    exact ⟨hr.2.2.1, hr.2.2.2⟩
  exact ⟨key, key⟩

theorem reshaped_years_witness :
    (2000 : Int) ≤ 2005 ∧ (2005 : Int) ≤ 2010 :=
  (reshaped_years_within_range [⟨2005, "Drama", 100⟩] ["Drama"] 2000 2010 2 2005).2
    (by decide)

/-- C9: the currency conversion of line 60 is a pure function of the
reshaped matrix and the rate: it yields a matrix with the same row and
column labels and every cell multiplied by the rate, and it leaves the
input untouched — `df_reshaped` is built from the dataset and selection
alone, independently of the rate, and the converted matrix is exactly
`convertToEur` applied to it, so every cell, row and column of the input
matrix still denotes its original USD value after conversion. -/
theorem convert_is_pure_cellwise_scaling
    (m : GenreMatrix) (rate : Rat) (df : List MovieRecord)
    (genres : List String) (y0 y1 : Int) :
    (convertToEur m rate).rows = m.rows ∧
    (convertToEur m rate).cols = m.cols ∧
    (∀ y g, (convertToEur m rate).cell y g = m.cell y g * rate) ∧
    df_reshaped_eur df genres y0 y1 rate =
      convertToEur (df_reshaped df genres y0 y1) rate ∧
    (∀ y g, (df_reshaped df genres y0 y1).cell y g =
      cellSum (df_filtered df genres y0 y1) y g) :=
  ⟨rfl, rfl, fun _ _ => rfl, rfl, fun _ _ => rfl⟩

/-- C10: the filter, pivot, sort, convert pipeline is deterministic — two
runs on equal datasets, equal genre selections, equal year ranges and
equal rates produce identical converted matrices: same row labels in the
same order, same column labels in the same order, and equal cell values
everywhere. There is no other input and no hidden state. -/
theorem pipeline_deterministic
    (df1 df2 : List MovieRecord) (genres1 genres2 : List String)
    (a1 a2 b1 b2 : Int) (rate1 rate2 : Rat)
    (hdf : df1 = df2) (hg : genres1 = genres2) (ha : a1 = a2) (hb : b1 = b2)
    (hr : rate1 = rate2) :
    (df_reshaped_eur df1 genres1 a1 b1 rate1).rows =
      (df_reshaped_eur df2 genres2 a2 b2 rate2).rows ∧
    (df_reshaped_eur df1 genres1 a1 b1 rate1).cols =
      (df_reshaped_eur df2 genres2 a2 b2 rate2).cols ∧
    ∀ y g, (df_reshaped_eur df1 genres1 a1 b1 rate1).cell y g =
      (df_reshaped_eur df2 genres2 a2 b2 rate2).cell y g := by
  subst hdf hg ha hb hr
  exact ⟨rfl, rfl, fun _ _ => rfl⟩

theorem pipeline_deterministic_witness :
    (df_reshaped_eur [⟨2005, "Drama", 100⟩] ["Drama"] 2000 2010 2).rows =
      (df_reshaped_eur [⟨2005, "Drama", 100⟩] ["Drama"] 2000 2010 2).rows :=
  (pipeline_deterministic [⟨2005, "Drama", 100⟩] [⟨2005, "Drama", 100⟩]
    ["Drama"] ["Drama"] 2000 2000 2010 2010 2 2 rfl rfl rfl rfl rfl).1

/-- C6: filtering with a genre list containing every genre present in the
dataset and a year range covering every year present, then pivoting with
sum, gives for each (year, genre) the same aggregate total as an
unfiltered group-by-(year, genre) sum over the raw dataset. -/
theorem full_selection_roundtrip
    (df : List MovieRecord) (genres : List String) (y0 y1 : Int)
    (hg : ∀ r ∈ df, r.genre ∈ genres)
    (hy : ∀ r ∈ df, y0 ≤ r.year ∧ r.year ≤ y1)
    (y : Int) (g : String) :
    (df_reshaped df genres y0 y1).cell y g = cellSum df y g := by
  have hfull : df_filtered df genres y0 y1 = df := by
    refine List.filter_eq_self.mpr fun r hr => ?_
    simp only [Bool.and_eq_true, decide_eq_true_eq]
    exact ⟨List.elem_eq_true_of_mem (hg r hr), (hy r hr).1, (hy r hr).2⟩
  simp [df_reshaped, sort_values_year_desc, pivot_table, hfull]

theorem full_selection_roundtrip_witness :
    (df_reshaped [⟨2005, "Drama", 100⟩] ["Drama"] 2000 2010).cell 2005 "Drama" =
      cellSum [⟨2005, "Drama", 100⟩] 2005 "Drama" :=
  full_selection_roundtrip [⟨2005, "Drama", 100⟩] ["Drama"] 2000 2010
    (by decide) (by decide) 2005 "Drama"

/-- C5: an empty genre selection, or a year range overlapping no record's
year, yields an empty matrix with zero rows, and the downstream renderers
consume it without failure — the table shows the empty row list and the
melted chart data `df_chart` is the empty list (both are total functions
of the matrix, so no exception can arise). -/
theorem empty_selection_yields_empty_matrix
    (df : List MovieRecord) (genres : List String) (y0 y1 : Int) (rate : Rat) :
    ((df_reshaped_eur df [] y0 y1 rate).rows = [] ∧
      df_chart (df_reshaped_eur df [] y0 y1 rate) = []) ∧
    ((∀ r ∈ df, ¬(y0 ≤ r.year ∧ r.year ≤ y1)) →
      (df_reshaped_eur df genres y0 y1 rate).rows = [] ∧
      df_chart (df_reshaped_eur df genres y0 y1 rate) = []) := by
  constructor
  · have hnil : df_filtered df [] y0 y1 = [] := by
      simp [df_filtered]
    simp [df_reshaped_eur, convertToEur, df_reshaped, sort_values_year_desc,
      pivot_table, df_chart, hnil, sortByRel]
  · intro hno
    have hnil : df_filtered df genres y0 y1 = [] := by
      refine List.filter_eq_nil_iff.mpr fun r hr => ?_
      simp only [Bool.and_eq_true, decide_eq_true_eq, not_and]
      intro _ h0 h1
      exact hno r hr ⟨h0, h1⟩
    simp [df_reshaped_eur, convertToEur, df_reshaped, sort_values_year_desc,
      pivot_table, df_chart, hnil, sortByRel]

theorem empty_selection_witness :
    (df_reshaped_eur [⟨2005, "Drama", 100⟩] [] 2000 2010 2).rows = [] :=
  (empty_selection_yields_empty_matrix [⟨2005, "Drama", 100⟩] ["Drama"] 2000 2010 2).1.1

/-- C3 counterexample: with dataset {(2000, Drama, 100)}, selection
{Drama, Comedy} and year range 2000-2000, the selected genre Comedy has
zero matching records and the pivot drops its column entirely instead of
keeping it as an all-zero column: the matrix's column list is just
[Drama]. -/
theorem selected_empty_genre_column_dropped :
    "Comedy" ∈ ["Drama", "Comedy"] ∧
    (df_reshaped_eur [⟨2000, "Drama", 100⟩] ["Drama", "Comedy"] 2000 2000 1).cols
      = ["Drama"] ∧
    "Comedy" ∉ (df_reshaped_eur [⟨2000, "Drama", 100⟩] ["Drama", "Comedy"]
      2000 2000 1).cols := by
  refine ⟨by decide, by decide, by decide⟩

/-- C3 amended: the matrix's columns are exactly the genres occurring
among the filtered records — a selected genre with zero matching records
after filtering is dropped rather than kept as an all-zero column — and
any (year, genre) combination with no matching rows reads as 0 rather
than being absent. -/
theorem pivot_cols_present_genres_and_zero_fill
    (df : List MovieRecord) (genres : List String) (y0 y1 : Int) (rate : Rat)
    (y : Int) (g : String) :
    (g ∈ (df_reshaped_eur df genres y0 y1 rate).cols ↔
      ∃ r ∈ df_filtered df genres y0 y1, r.genre = g) ∧
    ((∀ r ∈ df_filtered df genres y0 y1, ¬(r.year = y ∧ r.genre = g)) →
      (df_reshaped_eur df genres y0 y1 rate).cell y g = 0) := by
  constructor
  · simp [df_reshaped_eur, convertToEur, df_reshaped, sort_values_year_desc,
      pivot_table, mem_sortByRel, List.mem_dedup, List.mem_map]
  · intro hnone
    have hnil : (df_filtered df genres y0 y1).filter
        (fun r => r.year == y && r.genre == g) = [] := by
      refine List.filter_eq_nil_iff.mpr fun r hr => ?_
      simp only [Bool.and_eq_true, beq_iff_eq, not_and]
      intro h0 h1
      exact hnone r hr ⟨h0, h1⟩
    simp [df_reshaped_eur, convertToEur, df_reshaped, sort_values_year_desc,
      pivot_table, cellSum, hnil]

theorem pivot_zero_fill_witness :
    (df_reshaped_eur [⟨2000, "Drama", 100⟩, ⟨2001, "Comedy", 50⟩]
      ["Drama", "Comedy"] 2000 2001 1).cell 2000 "Comedy" = 0 :=
  (pivot_cols_present_genres_and_zero_fill
    [⟨2000, "Drama", 100⟩, ⟨2001, "Comedy", 50⟩] ["Drama", "Comedy"]
    2000 2001 1 2000 "Comedy").2 (by decide)

/-- C2 counterexample: a syntactically valid payload whose rate value is
JSON null — a non-numeric rate value — makes `float(None)` raise
`TypeError`, which the except tuple on line 40 does not match, so a raw
exception escapes to the user instead of the single error message. -/
theorem null_rate_value_raises_uncaught :
    appRenderFx (.body (some (.obj
        [("rates", .obj [("EUR", .null)]), ("date", .str "2024-01-01")])))
      = .raised .typeError ∧
    handledByExcept .typeError = false :=
  ⟨rfl, rfl⟩

/-- C2 amended: every rate-fetch failure whose raised exception is one the
except tuple matches — network/connection failure, timeout, HTTP error
status, malformed JSON, a missing field, and a non-numeric string rate
value, i.e. every raised exception other than `TypeError` — is mapped to
the single user-visible error message and a clean stop of the render
cycle; but a rate value (or payload shape) on which subscripting or
`float` raises `TypeError`, such as a null rate, escapes as a raw
exception. -/
theorem handled_failures_show_single_error (o : FetchOutcome) (e : PyExc)
    (he : load_usd_to_eur_rate o = .error e) (hne : e ≠ .typeError) :
    appRenderFx o = .errorStop rateErrorMessage := by
  have hh : handledByExcept e = true := by
    cases e <;> simp_all [handledByExcept]
  simp [appRenderFx, he, hh]

theorem handled_failures_witness :
    appRenderFx .timeout = .errorStop rateErrorMessage :=
  handled_failures_show_single_error .timeout .timeoutError rfl (by decide)

/-- C7: with an empty cache, a first call at time t1 performs exactly one
network fetch; a second call at any t2 inside the 12-hour window returns
the identical (rate, date) value with zero further network requests — so
the two calls issue one request in total — and once t2 reaches the end of
the window the second call re-fetches, issuing a network request. -/
theorem rate_cache_idempotent_within_ttl
    (fetch : Nat → Rat × JValue) (t1 t2 : Nat) :
    (cachedRateCall fetch none t1).2.1 = 1 ∧
    (t2 < t1 + fxCacheTtl →
      (cachedRateCall fetch (cachedRateCall fetch none t1).2.2 t2).1
        = (cachedRateCall fetch none t1).1 ∧
      (cachedRateCall fetch (cachedRateCall fetch none t1).2.2 t2).2.1 = 0) ∧
    (t1 + fxCacheTtl ≤ t2 →
      (cachedRateCall fetch (cachedRateCall fetch none t1).2.2 t2).2.1 = 1) := by
  refine ⟨rfl, ?_, ?_⟩
  · intro h
    simp [cachedRateCall, h]
  · intro h
    simp [cachedRateCall, Nat.not_lt.mpr h]

theorem rate_cache_witness :
    (cachedRateCall (fun _ => ((1 : Rat), JValue.str "2024-01-01")) none 0).2.1 = 1 ∧
    (cachedRateCall (fun _ => ((1 : Rat), JValue.str "2024-01-01"))
        (cachedRateCall (fun _ => ((1 : Rat), JValue.str "2024-01-01")) none 0).2.2 1).1
      = (cachedRateCall (fun _ => ((1 : Rat), JValue.str "2024-01-01")) none 0).1 :=
  ⟨(rate_cache_idempotent_within_ttl (fun _ => ((1 : Rat), JValue.str "2024-01-01")) 0 1).1,
    ((rate_cache_idempotent_within_ttl (fun _ => ((1 : Rat), JValue.str "2024-01-01")) 0 1).2.1
      (by decide)).1⟩
